import Mathlib

/-!
Verification of the RAZOR Primer-BLAST validation pipeline.

This file gives a shallow embedding of the extraction, matching and
validation logic of `validate_records_from_primerblast.py` and of the
product-size banding of `submit_primerblast_jobs.py`, and proves the
behavioural properties stated about them.

Strings are modelled as Lean `String` / `List Char`; the Python regular
expressions used by the extractor are deterministic (every greedy
sub-pattern is followed by a character excluded from it, so backtracking
can never succeed), and are embedded as explicit character scanners.
Optional / nullable values are `Option`; the network fetch is an explicit
`Option String` parameter of `validate_job`.
-/

set_option maxHeartbeats 4000000
set_option maxRecDepth 4096

/-- Status values assigned to the `validation_status` field by
`validate_records_from_primerblast.py` (including the `no_job_key`
status assigned by `process_job` inside `validate_all_jobs`). -/
inductive VStatus where
  | no_url
  | fetch_failed
  | processing
  | no_primers
  | extraction_failed
  | no_primer_data
  | pass
  | fail
  | no_job_key
  deriving DecidableEq

/-- One extracted primer pair, as built by `_extract_single_pair`.
All fields start out null and are filled in only when the corresponding
table row is found. -/
structure PrimerPair where
  forward_start : Option Int
  forward_end : Option Int
  forward_sequence : Option String
  reverse_start : Option Int
  reverse_end : Option Int
  reverse_sequence : Option String
  product_length : Option Int
  pair_index : Option Nat
  deriving DecidableEq

/-- The fields of a job record (as produced by `submit_primerblast_jobs.py`)
that the validator reads.  Every field the JSON may omit or set to null is
an `Option`. -/
structure JobInfo where
  primer_id : String
  job_key : Option String
  results_url : Option String
  forward_primer : Option String
  reverse_primer : Option String
  left_primer_start : Option Int
  right_primer_start : Option Int
  product_size : Option Int
  deriving DecidableEq

/-- The four check booleans stored in the `validation` dict. -/
structure Validation where
  forward_start_match : Bool
  reverse_start_match : Bool
  product_size_match : Bool
  sequences_match : Bool
  deriving DecidableEq

/-- The validation-related fields that `validate_job` (and `process_job`)
may add to a job record.  An outer `none` means the field was never
assigned in that run; `some` holds the assigned (possibly null) value. -/
structure JobResult where
  validation_status : VStatus
  total_primer_pairs_found : Option Nat
  matched_pair_index : Option (Option Nat)
  used_matching_algorithm : Option Bool
  extracted_forward_sequence : Option (Option String)
  extracted_forward_start : Option (Option Int)
  extracted_forward_end : Option (Option Int)
  extracted_reverse_sequence : Option (Option String)
  extracted_reverse_start : Option (Option Int)
  extracted_reverse_end : Option (Option Int)
  extracted_product_length : Option (Option Int)
  sequences_match : Option Bool
  validation : Option Validation
  validation_passed : Option Bool
  deriving DecidableEq

/-- A job result where only `validation_status` has been assigned. -/
def base_result (st : VStatus) : JobResult :=
  { validation_status := st
    total_primer_pairs_found := none
    matched_pair_index := none
    used_matching_algorithm := none
    extracted_forward_sequence := none
    extracted_forward_start := none
    extracted_forward_end := none
    extracted_reverse_sequence := none
    extracted_reverse_start := none
    extracted_reverse_end := none
    extracted_product_length := none
    sequences_match := none
    validation := none
    validation_passed := none }

/-! ### String utilities (Python truthiness, `in`, `.lower()`, `.upper()`) -/

/-- Case-sensitive test that the first list is an initial segment of the
second (used for the Python `in` containment test). -/
def starts_with : List Char → List Char → Bool
  | [], _ => true
  | _ :: _, [] => false
  | c :: cs, d :: ds => c == d && starts_with cs ds

/-- Python's `needle in hay` substring containment, on character lists. -/
def has_substring (needle : List Char) : List Char → Bool
  | [] => starts_with needle []
  | s@(_ :: rest) => starts_with needle s || has_substring needle rest

/-- Python's `needle in hay` on strings. -/
def contains_sub (needle hay : String) : Bool :=
  has_substring needle.data hay.data

/-- Python's `str.lower()` (on the ASCII alphabet used here). -/
def str_lower (s : String) : String :=
  String.mk (s.data.map Char.toLower)

/-- Python's `str.upper()` (on the ASCII alphabet used here). -/
def str_upper (s : String) : String :=
  String.mk (s.data.map Char.toUpper)

/-- Python truthiness of an optional string: `None` and `""` are falsy. -/
def str_truthy : Option String → Bool
  | none => false
  | some s => !(s.data.isEmpty)

/-! ### Regex scanners

Each Python regex used by the validator is deterministic: every greedy
piece (`[^>]*`, `\s+`, `[ATCGN]+`, `[^<]+`, `\d+`) is followed in the
pattern by a character that the piece itself excludes, so the maximal
(greedy) run is the only one a backtracking engine can ever accept.
The scanners below implement exactly that maximal-run semantics. -/

/-- Case-insensitive literal match (the patterns run under
`re.IGNORECASE`): consumes the literal and returns the rest of the
input, or fails. -/
def match_ci : List Char → List Char → Option (List Char)
  | [], s => some s
  | _ :: _, [] => none
  | c :: cs, d :: ds => if c.toLower == d.toLower then match_ci cs ds else none

/-- Greedy one-or-more character-class match (`[...]+`): returns the
maximal nonempty run and the rest of the input. -/
def plus_class (p : Char → Bool) (s : List Char) : Option (List Char × List Char) :=
  match s.takeWhile p with
  | [] => none
  | r => some (r, s.dropWhile p)

/-- Python's `\s` character class (ASCII part). -/
def is_space (c : Char) : Bool :=
  c == ' ' || c == '\t' || c == '\n' || c == '\x0d' || c == '\x0b' || c == '\x0c'

/-- The `[ATCGN]` class under `re.IGNORECASE`. -/
def is_acgtn (c : Char) : Bool :=
  let d := c.toUpper
  d == 'A' || d == 'T' || d == 'C' || d == 'G' || d == 'N'

/-- Digit-string to number, as Python `int()` on a `\d+` group. -/
def nat_of_digits (l : List Char) : Nat :=
  l.foldl (fun n c => 10 * n + (c.toNat - 48)) 0

/-- Attempt to match the section-header pattern
`<h3[^>]*>Primer pair \d+</h3>` (IGNORECASE) at the head of the input,
returning the input remaining after the match. -/
def match_header_at (s : List Char) : Option (List Char) := do
  let s1 ← match_ci "<h3".data s
  match s1.dropWhile (fun c => !(c == '>')) with
  | '>' :: s2 => do
    let s3 ← match_ci "Primer pair ".data s2
    let (_, s4) ← plus_class Char.isDigit s3
    match_ci "</h3>".data s4
  | _ => none

/-- One captured primer row: the five groups of the forward/reverse
primer regex (sequence, strand, length, start, stop). -/
structure RowMatch where
  seq : List Char
  strand : List Char
  row_len : Nat
  row_start : Nat
  row_stop : Nat
  deriving DecidableEq

/-- Attempt to match
`<tr><th>NAME\s+primer</th><td>([ATCGN]+)</td><td>([^<]+)</td><td>(\d+)</td><td>(\d+)</td><td>(\d+)</td>`
(IGNORECASE) at the head of the input, where `NAME` is `Forward` or
`Reverse`. -/
def match_primer_row_at (name : List Char) (s : List Char) : Option RowMatch := do
  let s ← match_ci "<tr><th>".data s
  let s ← match_ci name s
  let (_, s) ← plus_class is_space s
  let s ← match_ci "primer</th><td>".data s
  let (g1, s) ← plus_class is_acgtn s
  let s ← match_ci "</td><td>".data s
  let (g2, s) ← plus_class (fun c => !(c == '<')) s
  let s ← match_ci "</td><td>".data s
  let (g3, s) ← plus_class Char.isDigit s
  let s ← match_ci "</td><td>".data s
  let (g4, s) ← plus_class Char.isDigit s
  let s ← match_ci "</td><td>".data s
  let (g5, s) ← plus_class Char.isDigit s
  let _ ← match_ci "</td>".data s
  pure { seq := g1, strand := g2, row_len := nat_of_digits g3,
         row_start := nat_of_digits g4, row_stop := nat_of_digits g5 }

/-- Attempt to match `<tr><th>Product\s+length</th><td[^>]*>(\d+)</td></tr>`
(IGNORECASE) at the head of the input. -/
def match_product_row_at (s : List Char) : Option Nat := do
  let s ← match_ci "<tr><th>Product".data s
  let (_, s) ← plus_class is_space s
  let s ← match_ci "length</th><td".data s
  match s.dropWhile (fun c => !(c == '>')) with
  | '>' :: s2 => do
    let (g, s3) ← plus_class Char.isDigit s2
    let _ ← match_ci "</td></tr>".data s3
    pure (nat_of_digits g)
  | _ => none

/-- Python `re.search`: try the matcher at every start position, left to
right, and return the first success. -/
def search_at {α : Type} (f : List Char → Option α) : List Char → Option α
  | [] => f []
  | s@(_ :: rest) =>
    match f s with
    | some r => some r
    | none => search_at f rest

/-- Worker for `re.split` on the section-header pattern.  The fuel is an
upper bound on the input length (each step consumes at least one
character, so with fuel = length the exhaustion case is never taken). -/
def split_header_aux : Nat → List Char → List Char → List (List Char)
  | _, acc, [] => [acc.reverse]
  | 0, acc, s => [acc.reverse ++ s]
  | fuel + 1, acc, c :: rest =>
    match match_header_at (c :: rest) with
    | some s' => acc.reverse :: split_header_aux fuel [] s'
    | none => split_header_aux fuel (c :: acc) rest

/-- Python `re.split(r'<h3[^>]*>Primer pair \d+</h3>', s, re.IGNORECASE)`
(the pattern has no capture groups, so only the between-match pieces are
returned). -/
def re_split_header (s : List Char) : List (List Char) :=
  split_header_aux s.length [] s

/-- True when the section-header pattern matches somewhere in the input. -/
def contains_pair_header (html : String) : Bool :=
  html.data.tails.any (fun t => (match_header_at t).isSome)

/-! ### The extractor (`_extract_single_pair`, `extract_all_primer_pairs`) -/

/-- `PrimerBlastValidator._extract_single_pair`: independently search
the section for a forward-primer row, a reverse-primer row and a
product-length row; a missing row leaves its fields null.  The strand
and length groups are captured but (as in the source) discarded. -/
def extract_single_pair (html : List Char) (pair_index : Option Nat) : PrimerPair :=
  let base : PrimerPair :=
    { forward_start := none, forward_end := none, forward_sequence := none
      reverse_start := none, reverse_end := none, reverse_sequence := none
      product_length := none, pair_index := pair_index }
  let r1 :=
    match search_at (match_primer_row_at "Forward".data) html with
    | some m => { base with forward_sequence := some (String.mk m.seq)
                            forward_start := some (Int.ofNat m.row_start)
                            forward_end := some (Int.ofNat m.row_stop) }
    | none => base
  let r2 :=
    match search_at (match_primer_row_at "Reverse".data) html with
    | some m => { r1 with reverse_sequence := some (String.mk m.seq)
                          reverse_start := some (Int.ofNat m.row_start)
                          reverse_end := some (Int.ofNat m.row_stop) }
    | none => r1
  match search_at match_product_row_at html with
  | some n => { r2 with product_length := some (Int.ofNat n) }
  | none => r2

/-- Python `enumerate(xs, i)`. -/
def enumerate_from {α : Type} : Nat → List α → List (Nat × α)
  | _, [] => []
  | i, a :: as => (i, a) :: enumerate_from (i + 1) as

/-- `PrimerBlastValidator.extract_all_primer_pairs`: split the page on
`<h3>Primer pair N</h3>` headers (treating the whole page as one section
when at most one piece results), extract each section, and keep a pair
only when its forward start was found. -/
def extract_all_primer_pairs (html : String) : List PrimerPair :=
  let secs0 := re_split_header html.data
  let secs := if secs0.length ≤ 1 then [html.data] else secs0.drop 1
  (enumerate_from 1 secs).filterMap (fun is =>
    let p := extract_single_pair is.2 (some is.1)
    if p.forward_start.isSome then some p else none)

/-! ### The matcher (`find_matching_pair`) -/

/-- One disjunct of the matcher's per-field test: the expected value is
null, or the extracted value is null, or the two integers are equal
(the source's `int(e) == int(x)`). -/
def null_or_eq (e x : Option Int) : Bool :=
  match e, x with
  | none, _ => true
  | _, none => true
  | some a, some b => a == b

/-- The matcher's per-pair test: all three of the forward-start,
reverse-start and product-size checks hold. -/
def pair_matches (job : JobInfo) (p : PrimerPair) : Bool :=
  null_or_eq job.left_primer_start p.forward_start &&
  null_or_eq job.right_primer_start p.reverse_start &&
  null_or_eq job.product_size p.product_length

/-- The `for pair in all_pairs` loop of `find_matching_pair`: return the
first pair passing `pair_matches`, if any. -/
def find_first_match (job : JobInfo) : List PrimerPair → Option PrimerPair
  | [] => none
  | p :: rest => if pair_matches job p then some p else find_first_match job rest

/-- `PrimerBlastValidator.find_matching_pair`: first matching pair
tagged `true`; otherwise `all_pairs[0] if all_pairs else None` tagged
`false`. -/
def find_matching_pair (all_pairs : List PrimerPair) (job : JobInfo) :
    Option PrimerPair × Bool :=
  match find_first_match job all_pairs with
  | some p => (some p, true)
  | none => (all_pairs.head?, false)

/-! ### The validator (`validate_job`) -/

/-- One side of the sequence check in `validate_job`: the comparison is
performed (and can fail) only when both the extracted and the expected
sequence are truthy (non-null and nonempty); it is case-insensitive via
`.upper()`. -/
def seq_side (extracted expected : Option String) : Bool :=
  match extracted, expected with
  | some a, some b =>
    if a.data.isEmpty || b.data.isEmpty then true
    else str_upper a == str_upper b
  | _, _ => true

/-- The `sequence_match` flag of `validate_job`: starts `True`, cleared
by a forward or a reverse mismatch. -/
def sequences_check (job : JobInfo) (mp : PrimerPair) : Bool :=
  seq_side mp.forward_sequence job.forward_primer &&
  seq_side mp.reverse_sequence job.reverse_primer

/-- One coordinate check of `validate_job`: the boolean starts `False`
and is assigned only when both the expected and the extracted value are
non-null. -/
def coord_check (e x : Option Int) : Bool :=
  match e, x with
  | some a, some b => a == b
  | _, _ => false

/-- The `validation` dict built by `validate_job` for the matched pair. -/
def build_validation (job : JobInfo) (mp : PrimerPair) : Validation :=
  { forward_start_match := coord_check job.left_primer_start mp.forward_start
    reverse_start_match := coord_check job.right_primer_start mp.reverse_start
    product_size_match := coord_check job.product_size mp.product_length
    sequences_match := sequences_check job mp }

/-- The tail of `validate_job` once a matched pair exists: store the
extracted fields, the checks, the overall flag, and `pass`/`fail`. -/
def finish_validation (job : JobInfo) (all_pairs : List PrimerPair)
    (mp : PrimerPair) (match_found : Bool) : JobResult :=
  let v := build_validation job mp
  let passed := v.forward_start_match && v.reverse_start_match &&
                v.product_size_match && v.sequences_match
  { validation_status := if passed then VStatus.pass else VStatus.fail
    total_primer_pairs_found := some all_pairs.length
    matched_pair_index := some mp.pair_index
    used_matching_algorithm := some match_found
    extracted_forward_sequence := some mp.forward_sequence
    extracted_forward_start := some mp.forward_start
    extracted_forward_end := some mp.forward_end
    extracted_reverse_sequence := some mp.reverse_sequence
    extracted_reverse_start := some mp.reverse_start
    extracted_reverse_end := some mp.reverse_end
    extracted_product_length := some mp.product_length
    sequences_match := some (sequences_check job mp)
    validation := some v
    validation_passed := some passed }

/-- `PrimerBlastValidator.validate_job`.  The result of the network
fetch is passed in as `fetched` (`none` models a fetch error; Python's
`if not html` also treats an empty page as a failed fetch). -/
def validate_job (job : JobInfo) (fetched : Option String) : JobResult :=
  if !(str_truthy job.results_url) then base_result VStatus.no_url
  else
    match fetched with
    | none => base_result VStatus.fetch_failed
    | some html =>
      if html.data.isEmpty then base_result VStatus.fetch_failed
      else if contains_sub "processing" (str_lower html) ||
              contains_sub "queued" (str_lower html) then base_result VStatus.processing
      else if contains_sub "No primer pairs found" html then base_result VStatus.no_primers
      else
        let all_pairs := extract_all_primer_pairs html
        if all_pairs.isEmpty then base_result VStatus.extraction_failed
        else
          match find_matching_pair all_pairs job with
          | (none, _) =>
            { base_result VStatus.no_primer_data with
                total_primer_pairs_found := some all_pairs.length }
          | (some mp, match_found) => finish_validation job all_pairs mp match_found

/-! ### The aggregator (`validate_all_jobs`) -/

/-- The `process_job` worker inside `validate_all_jobs`: jobs without a
truthy `job_key` are tagged `no_job_key`, the rest are validated. -/
def process_job (job : JobInfo) (fetched : Option String) : JobResult :=
  if !(str_truthy job.job_key) then base_result VStatus.no_job_key
  else validate_job job fetched

/-- A placeholder job record (indexing default; never selected for an
in-range index). -/
def default_job : JobInfo :=
  { primer_id := "", job_key := none, results_url := none
    forward_primer := none, reverse_primer := none
    left_primer_start := none, right_primer_start := none, product_size := none }

/-- The value worker `i` computes: `process_job` on the `i`-th job, with
`fetch` giving the page each job's URL would return. -/
def process_slot (jobs : List JobInfo) (fetch : Nat → Option String) (i : Nat) : JobResult :=
  process_job (jobs.getD i default_job) (fetch i)

/-- The result-collection loop of `validate_all_jobs`: a pre-allocated
`[None] * len(jobs)` slot list, into which each completed worker's
result is written at its original index.  `order` is the order in which
workers complete. -/
def run_validations (jobs : List JobInfo) (fetch : Nat → Option String)
    (order : List Nat) : List (Option JobResult) :=
  order.foldl (fun acc i => acc.set i (some (process_slot jobs fetch i)))
    (List.replicate jobs.length none)

/-! ### The submitter's size banding (`_determine_product_size_range`) -/

/-- `PrimerBlastSubmitter._determine_product_size_range`. -/
def determine_product_size_range (product_size : Int) : Int × Int :=
  if product_size < 150 then (100, 200)
  else if product_size ≤ 200 then (150, 200)
  else (300, 500)

/-! ### Spec-side definitions (for the refinement statement about the matcher) -/

/-- Modelled from the spec: one per-field condition of the matcher as the
spec words it — the expected value is absent, or the pair's corresponding
extracted field is null, or the two integers are exactly equal. -/
def spec_condition (e x : Option Int) : Bool :=
  e.isNone || x.isNone || e == x

/-- Modelled from the spec: a pair satisfies all three conditions
(forward start, reverse start, product size). -/
def spec_pair_ok (job : JobInfo) (p : PrimerPair) : Bool :=
  spec_condition job.left_primer_start p.forward_start &&
  spec_condition job.right_primer_start p.reverse_start &&
  spec_condition job.product_size p.product_length

/-- Modelled from the spec: the first pair satisfying all three
conditions is returned tagged confirmed; otherwise the first extracted
pair tagged unconfirmed; with no pairs, no pair is returned. -/
def spec_find_matching_pair (all_pairs : List PrimerPair) (job : JobInfo) :
    Option PrimerPair × Bool :=
  match all_pairs.find? (fun p => spec_pair_ok job p) with
  | some p => (some p, true)
  | none => (all_pairs.head?, false)

/-! ### Concrete inputs (used to instantiate the theorems below) -/

/-- A result page with one forward row, one reverse row and a product
length row (and no section headers). -/
def html0 : String :=
  "<tr><th>Forward primer</th><td>ATCG</td><td>Plus</td><td>4</td><td>10</td><td>13</td><td>59.54</td><td>50.00</td><td>6.00</td><td>4.00</td></tr><tr><th>Reverse primer</th><td>ggtt</td><td>Minus</td><td>4</td><td>50</td><td>47</td><td>59.54</td><td>50.00</td><td>6.00</td><td>4.00</td></tr><tr><th>Product length</th><td colspan=\"9\">41</td></tr>"

/-- A job whose expected values agree with `html0`. -/
def job0 : JobInfo :=
  { primer_id := "p1", job_key := some "k1", results_url := some "http://x"
    forward_primer := some "atcg", reverse_primer := some "GGTT"
    left_primer_start := some 10, right_primer_start := some 50, product_size := some 41 }

/-- Like `job0` but with a null expected product size. -/
def job_null_size : JobInfo :=
  { job0 with product_size := none }

/-- A job with no results URL. -/
def job_no_url : JobInfo :=
  { job0 with results_url := none }

/-- A job with no job key. -/
def job_no_key : JobInfo :=
  { job0 with job_key := none }

/-- A concrete extracted pair. -/
def pair0 : PrimerPair :=
  { forward_start := some 10, forward_end := some 13, forward_sequence := some "ATCG"
    reverse_start := some 50, reverse_end := some 47, reverse_sequence := some "ggtt"
    product_length := some 41, pair_index := some 1 }

/-- A two-job batch. -/
def jobs2 : List JobInfo := [job0, job_no_key]

/-- The pages the two jobs of `jobs2` fetch. -/
def fetch2 : Nat → Option String :=
  fun i => if i == 0 then some html0 else none

/-- The validation dict with all four checks true. -/
def v_all_true : Validation :=
  { forward_start_match := true, reverse_start_match := true
    product_size_match := true, sequences_match := true }

/-- The validation dict produced for `job_null_size` on `html0`:
the product-size check stays at its initial `false`. -/
def v_null_size : Validation :=
  { forward_start_match := true, reverse_start_match := true
    product_size_match := false, sequences_match := true }

/-! ### Helper lemmas -/

/-- The matcher's per-field test agrees with the spec's wording of it. -/
theorem null_or_eq_eq_spec (e x : Option Int) : null_or_eq e x = spec_condition e x := by
  cases e <;> cases x <;> rfl

/-- The matcher's per-pair test agrees with the spec's wording of it. -/
theorem pair_matches_eq_spec (job : JobInfo) (p : PrimerPair) :
    pair_matches job p = spec_pair_ok job p := by
  unfold pair_matches spec_pair_ok
  rw [null_or_eq_eq_spec, null_or_eq_eq_spec, null_or_eq_eq_spec]

/-- The matcher's loop is the first-match search over the pair list. -/
theorem find_first_match_eq (job : JobInfo) :
    ∀ l : List PrimerPair, find_first_match job l = l.find? (fun p => spec_pair_ok job p) := by
  intro l
  induction l with
  | nil => rfl
  | cons p rest ih =>
    by_cases hp : pair_matches job p = true
    · rw [find_first_match, if_pos hp,
        List.find?_cons_of_pos _ (by rw [← pair_matches_eq_spec]; exact hp)]
    · rw [find_first_match, if_neg hp,
        List.find?_cons_of_neg _ (by rw [← pair_matches_eq_spec]; exact hp), ih]

/-- C1: `find_matching_pair` returns the first pair (in extraction
order) for which each of the three expected values is absent, null on
the extracted side, or exactly equal, tagged `true`; when no pair
satisfies all three conditions it returns the first extracted pair
tagged `false`. -/
theorem find_matching_pair_spec (all_pairs : List PrimerPair) (job : JobInfo) :
    find_matching_pair all_pairs job = spec_find_matching_pair all_pairs job := by
  unfold find_matching_pair spec_find_matching_pair
  rw [find_first_match_eq]

/-- C9: the submitter's size banding returns exactly one of the three
fixed bands, selected by the stated thresholds. -/
theorem determine_product_size_range_spec :
    ∀ n : Int,
      (determine_product_size_range n = (100, 200) ∨
       determine_product_size_range n = (150, 200) ∨
       determine_product_size_range n = (300, 500)) ∧
      (n < 150 → determine_product_size_range n = (100, 200)) ∧
      (150 ≤ n → n ≤ 200 → determine_product_size_range n = (150, 200)) ∧
      (200 < n → determine_product_size_range n = (300, 500)) := by
  intro n
  unfold determine_product_size_range
  refine ⟨?_, ?_, ?_, ?_⟩ <;> split <;> simp_all <;> omega

theorem determine_product_size_range_spec_witness :
    determine_product_size_range 100 = (100, 200) ∧
    determine_product_size_range 175 = (150, 200) ∧
    determine_product_size_range 300 = (300, 500) :=
  ⟨(determine_product_size_range_spec 100).2.1 (by decide),
   (determine_product_size_range_spec 175).2.2.1 (by decide) (by decide),
   (determine_product_size_range_spec 300).2.2.2 (by decide)⟩

/-- C8: a job whose `results_url` is absent or null is immediately
tagged `no_url`, and the result does not depend on what any fetch would
have returned. -/
theorem validate_job_no_url (job : JobInfo) (h : job.results_url = none) :
    (∀ f1 f2 : Option String, validate_job job f1 = validate_job job f2) ∧
    (∀ f : Option String,
      validate_job job f = base_result VStatus.no_url ∧
      (validate_job job f).validation_status = VStatus.no_url) := by
  have hb : ∀ f : Option String, validate_job job f = base_result VStatus.no_url := by
    intro f
    unfold validate_job
    rw [h]
    rfl
  exact ⟨fun f1 f2 => by rw [hb f1, hb f2], fun f => ⟨hb f, by rw [hb f]; rfl⟩⟩

theorem validate_job_no_url_witness :
    job_no_url.results_url = none ∧
    validate_job job_no_url (some html0) = validate_job job_no_url none ∧
    (validate_job job_no_url (some html0)).validation_status = VStatus.no_url :=
  ⟨by decide,
   (validate_job_no_url job_no_url (by decide)).1 (some html0) none,
   ((validate_job_no_url job_no_url (by decide)).2 (some html0)).2⟩

/-- The matcher never returns a null pair for a nonempty pair list:
the fallback is the head of the list. -/
theorem fmp_ne_nil (ap : List PrimerPair) (job : JobInfo) (h : ap ≠ []) :
    ((find_matching_pair ap job).1).isSome = true := by
  unfold find_matching_pair
  cases hfm : find_first_match job ap with
  | some p => rfl
  | none =>
    cases ap with
    | nil => exact absurd rfl h
    | cons p rest => rfl

/-- Conversely, a null first component forces an empty pair list. -/
theorem fmp_fst_none (ap : List PrimerPair) (job : JobInfo) (b : Bool)
    (h : find_matching_pair ap job = (none, b)) : ap = [] := by
  unfold find_matching_pair at h
  cases hfm : find_first_match job ap with
  | some p => rw [hfm] at h; cases h
  | none =>
    rw [hfm] at h
    cases ap with
    | nil => rfl
    | cons p rest => simp at h

/-- Case analysis on `validate_job`: either the run stopped before the
coordinate-validation step (and the `validation` field was never
assigned), or the result is `finish_validation` on the matched pair. -/
theorem validate_job_shape (job : JobInfo) (fetched : Option String) :
    (validate_job job fetched).validation = none ∨
    ∃ html mp mf,
      fetched = some html ∧
      find_matching_pair (extract_all_primer_pairs html) job = (some mp, mf) ∧
      validate_job job fetched =
        finish_validation job (extract_all_primer_pairs html) mp mf := by
  unfold validate_job
  split
  · exact Or.inl rfl
  · split
    · exact Or.inl rfl
    · rename_i html
      split
      · exact Or.inl rfl
      · split
        · exact Or.inl rfl
        · split
          · exact Or.inl rfl
          · dsimp only
            split
            · exact Or.inl rfl
            · split
              · exact Or.inl rfl
              · rename_i mp mf heq
                exact Or.inr ⟨html, mp, mf, rfl, heq, rfl⟩

theorem coord_check_none_left (x : Option Int) : coord_check none x = false := by
  cases x <;> rfl

theorem coord_check_none_right (e : Option Int) : coord_check e none = false := by
  cases e <;> rfl

theorem finish_validation_validation (job : JobInfo) (ap : List PrimerPair)
    (mp : PrimerPair) (mf : Bool) :
    (finish_validation job ap mp mf).validation = some (build_validation job mp) := rfl

/-- C2: whenever the coordinate-validation step is reached (the
`validation` dict was assigned), `validation_status` is `pass` exactly
when all four check booleans are true, and `fail` exactly when at least
one is false. -/
theorem validate_job_pass_iff (job : JobInfo) (fetched : Option String) (v : Validation)
    (h : (validate_job job fetched).validation = some v) :
    ((validate_job job fetched).validation_status = VStatus.pass ↔
      (v.forward_start_match && v.reverse_start_match &&
       v.product_size_match && v.sequences_match) = true) ∧
    ((validate_job job fetched).validation_status = VStatus.fail ↔
      ¬((v.forward_start_match && v.reverse_start_match &&
         v.product_size_match && v.sequences_match) = true)) := by
  rcases validate_job_shape job fetched with hnone | ⟨html, mp, mf, hf, hfind, heq⟩
  · rw [hnone] at h; cases h
  · rw [heq] at h ⊢
    rw [finish_validation_validation] at h
    have hv : v = build_validation job mp := (Option.some_inj.mp h).symm
    subst hv
    by_cases hp : ((build_validation job mp).forward_start_match &&
        (build_validation job mp).reverse_start_match &&
        (build_validation job mp).product_size_match &&
        (build_validation job mp).sequences_match) = true
    · constructor <;> simp [finish_validation, hp]
    · constructor <;> simp [finish_validation, hp]

/-- Instantiation of the C2 theorem on a concrete passing run. -/
theorem validate_job_pass_iff_witness :
    (validate_job job0 (some html0)).validation_status = VStatus.pass :=
  (validate_job_pass_iff job0 (some html0) v_all_true (by decide)).1.mpr (by decide)

/-- C3: if the coordinate-validation step is reached and any of the
three expected values is absent — or the matched pair's corresponding
extracted field is null — the affected check boolean stays at its
initial `false`, so `validation_passed` is `false` and the status is
`fail`, even though the matcher treated the same null as
non-disqualifying. -/
theorem validate_job_null_check_fails (job : JobInfo) (fetched : Option String) (v : Validation)
    (h : (validate_job job fetched).validation = some v)
    (hnull : job.left_primer_start = none ∨
             (validate_job job fetched).extracted_forward_start = some none ∨
             job.right_primer_start = none ∨
             (validate_job job fetched).extracted_reverse_start = some none ∨
             job.product_size = none ∨
             (validate_job job fetched).extracted_product_length = some none) :
    (validate_job job fetched).validation_passed = some false ∧
    (validate_job job fetched).validation_status = VStatus.fail := by
  rcases validate_job_shape job fetched with hnone | ⟨html, mp, mf, hf, hfind, heq⟩
  · rw [hnone] at h; cases h
  · rw [heq] at hnull ⊢
    rcases hnull with h1 | h1 | h1 | h1 | h1 | h1
    · simp [finish_validation, build_validation, h1, coord_check_none_left]
    · have hmp : mp.forward_start = none := by
        have h2 : some mp.forward_start = some (none : Option Int) := by
          simpa [finish_validation] using h1
        exact Option.some_inj.mp h2
      simp [finish_validation, build_validation, hmp, coord_check_none_right]
    · simp [finish_validation, build_validation, h1, coord_check_none_left]
    · have hmp : mp.reverse_start = none := by
        have h2 : some mp.reverse_start = some (none : Option Int) := by
          simpa [finish_validation] using h1
        exact Option.some_inj.mp h2
      simp [finish_validation, build_validation, hmp, coord_check_none_right]
    · simp [finish_validation, build_validation, h1, coord_check_none_left]
    · have hmp : mp.product_length = none := by
        have h2 : some mp.product_length = some (none : Option Int) := by
          simpa [finish_validation] using h1
        exact Option.some_inj.mp h2
      simp [finish_validation, build_validation, hmp, coord_check_none_right]

/-- Instantiation of the C3 theorem: a null expected product size makes
the run fail even though all present fields agree. -/
theorem validate_job_null_check_fails_witness :
    (validate_job job_null_size (some html0)).validation_passed = some false ∧
    (validate_job job_null_size (some html0)).validation_status = VStatus.fail :=
  validate_job_null_check_fails job_null_size (some html0) v_null_size (by decide)
    (Or.inr (Or.inr (Or.inr (Or.inr (Or.inl (by decide))))))

/-- C7: when both the extracted and the expected forward and reverse
sequences are present (non-null, nonempty), the `sequences_match` check
is case-insensitive exact comparison of the uppercased strings — in
particular `"ATCG"` and `"atcg"` compare equal — and it is `false`
exactly when an uppercased forward or reverse pair differs. -/
theorem validate_job_sequences_case_insensitive (job : JobInfo) (fetched : Option String)
    (v : Validation) (fs fp rs rp : String)
    (h : (validate_job job fetched).validation = some v)
    (hfs : (validate_job job fetched).extracted_forward_sequence = some (some fs))
    (hfs2 : fs.data.isEmpty = false)
    (hfp : job.forward_primer = some fp) (hfp2 : fp.data.isEmpty = false)
    (hrs : (validate_job job fetched).extracted_reverse_sequence = some (some rs))
    (hrs2 : rs.data.isEmpty = false)
    (hrp : job.reverse_primer = some rp) (hrp2 : rp.data.isEmpty = false) :
    v.sequences_match =
      ((str_upper fs == str_upper fp) && (str_upper rs == str_upper rp)) ∧
    seq_side (some "ATCG") (some "atcg") = true ∧
    (v.sequences_match = false ↔
      (str_upper fs ≠ str_upper fp ∨ str_upper rs ≠ str_upper rp)) := by
  rcases validate_job_shape job fetched with hnone | ⟨html, mp, mf, hf, hfind, heq⟩
  · rw [hnone] at h; cases h
  · rw [heq] at h hfs hrs
    rw [finish_validation_validation] at h
    have hv : v = build_validation job mp := (Option.some_inj.mp h).symm
    subst hv
    have hmpf : mp.forward_sequence = some fs := by
      have h2 : some mp.forward_sequence = some (some fs) := by
        simpa [finish_validation] using hfs
      exact Option.some_inj.mp h2
    have hmpr : mp.reverse_sequence = some rs := by
      have h2 : some mp.reverse_sequence = some (some rs) := by
        simpa [finish_validation] using hrs
      exact Option.some_inj.mp h2
    have hmain : (build_validation job mp).sequences_match =
        ((str_upper fs == str_upper fp) && (str_upper rs == str_upper rp)) := by
      simp [build_validation, sequences_check, seq_side, hmpf, hmpr, hfp, hrp,
        hfs2, hfp2, hrs2, hrp2]
    refine ⟨hmain, by decide, ?_⟩
    rw [hmain]
    simp only [Bool.and_eq_false_iff, beq_eq_false_iff_ne, ne_eq]

/-- Instantiation of the C7 theorem on the concrete run, where the two
sides differ only in letter case. -/
theorem validate_job_sequences_case_insensitive_witness :
    v_all_true.sequences_match =
      ((str_upper "ATCG" == str_upper "atcg") && (str_upper "ggtt" == str_upper "GGTT")) :=
  (validate_job_sequences_case_insensitive job0 (some html0) v_all_true
    "ATCG" "atcg" "ggtt" "GGTT"
    (by decide) (by decide) (by decide) (by decide) (by decide)
    (by decide) (by decide) (by decide) (by decide)).1

/-- C6: for a nonempty extracted-pair list the matcher always returns a
pair (the fallback is the head of the list), and consequently the
branch of `validate_job` that assigns `no_primer_data` is unreachable:
no run of `validate_job` ever produces that status. -/
theorem matcher_nonempty_no_primer_data_unreachable :
    (∀ (p : PrimerPair) (rest : List PrimerPair) (job : JobInfo),
      ((find_matching_pair (p :: rest) job).1).isSome = true) ∧
    (∀ (job : JobInfo) (fetched : Option String),
      (validate_job job fetched).validation_status ≠ VStatus.no_primer_data) := by
  constructor
  · intro p rest job
    exact fmp_ne_nil (p :: rest) job (by simp)
  · intro job fetched
    unfold validate_job
    split
    · simp [base_result]
    · split
      · simp [base_result]
      · rename_i html
        split
        · simp [base_result]
        · split
          · simp [base_result]
          · split
            · simp [base_result]
            · dsimp only
              split
              · simp [base_result]
              · split
                · rename_i snd heq
                  have hnil := fmp_fst_none _ job snd heq
                  simp_all
                · rename_i mp mf heq
                  simp only [finish_validation]
                  split <;> simp

/-- Instantiation of the C6 theorem at a concrete pair list and run. -/
theorem matcher_nonempty_no_primer_data_unreachable_witness :
    ((find_matching_pair [pair0] job0).1).isSome = true ∧
    (validate_job job0 (some html0)).validation_status ≠ VStatus.no_primer_data :=
  ⟨matcher_nonempty_no_primer_data_unreachable.1 pair0 [] job0,
   matcher_nonempty_no_primer_data_unreachable.2 job0 (some html0)⟩

/-- C5: on the empty pair list the matcher returns `(none, false)`, and
a job whose fetched page yields zero extracted pairs is tagged
`extraction_failed` (hence `extraction_failed` or `no_primer_data`)
with none of the validation fields populated. -/
theorem empty_pairs_extraction_failed (job : JobInfo) (html : String)
    (hu : str_truthy job.results_url = true)
    (hne : html.data.isEmpty = false)
    (hp : (contains_sub "processing" (str_lower html) ||
           contains_sub "queued" (str_lower html)) = false)
    (hn : contains_sub "No primer pairs found" html = false)
    (hz : extract_all_primer_pairs html = []) :
    (∀ j : JobInfo, find_matching_pair [] j = (none, false)) ∧
    validate_job job (some html) = base_result VStatus.extraction_failed ∧
    ((validate_job job (some html)).validation_status = VStatus.extraction_failed ∨
     (validate_job job (some html)).validation_status = VStatus.no_primer_data) ∧
    (validate_job job (some html)).validation = none ∧
    (validate_job job (some html)).validation_passed = none ∧
    (validate_job job (some html)).sequences_match = none ∧
    (validate_job job (some html)).extracted_forward_start = none ∧
    (validate_job job (some html)).total_primer_pairs_found = none := by
  have hb : validate_job job (some html) = base_result VStatus.extraction_failed := by
    unfold validate_job
    simp [hu, hne, hp, hn, hz]
  refine ⟨fun j => rfl, hb, ?_, ?_, ?_, ?_, ?_, ?_⟩ <;> rw [hb] <;> simp [base_result]

/-- Instantiation of the C5 theorem on a one-character page from which
nothing can be extracted. -/
theorem empty_pairs_extraction_failed_witness :
    find_matching_pair [] job0 = (none, false) ∧
    validate_job job0 (some "x") = base_result VStatus.extraction_failed :=
  ⟨(empty_pairs_extraction_failed job0 "x" (by decide) (by decide) (by decide)
      (by decide) (by decide)).1 job0,
   (empty_pairs_extraction_failed job0 "x" (by decide) (by decide) (by decide)
      (by decide) (by decide)).2.1⟩

/-- When the header pattern matches nowhere, the splitter makes no cut. -/
theorem split_header_aux_no_match :
    ∀ (fuel : Nat) (acc s : List Char), s.length ≤ fuel →
      (∀ t ∈ s.tails, match_header_at t = none) →
      split_header_aux fuel acc s = [acc.reverse ++ s] := by
  intro fuel
  induction fuel with
  | zero =>
    intro acc s hs _
    have hnil : s = [] := List.length_eq_zero.mp (Nat.le_zero.mp hs)
    subst hnil
    simp [split_header_aux]
  | succ n ih =>
    intro acc s hs h
    cases s with
    | nil => simp [split_header_aux]
    | cons c rest =>
      have hmatch : match_header_at (c :: rest) = none :=
        h (c :: rest) (by rw [List.tails_cons]; exact List.mem_cons_self _ _)
      rw [split_header_aux, hmatch]
      rw [ih (c :: acc) rest (by simpa using hs)
        (fun t ht => h t (by rw [List.tails_cons]; exact List.mem_cons_of_mem _ ht))]
      simp

/-- On a page with no section header, `re.split` returns the whole page. -/
theorem re_split_no_header (html : String) (h : contains_pair_header html = false) :
    re_split_header html.data = [html.data] := by
  have h2 : ∀ x, x <:+ html.data → match_header_at x = none := by
    simpa [contains_pair_header] using h
  simpa using split_header_aux_no_match html.data.length [] html.data le_rfl
    (fun t ht => h2 t ((List.mem_tails _ _).mp ht))

/-- C4: HTML with no `Primer pair N` section marker is treated as one
implicit section, so extraction returns at most one pair — exactly one
when a forward start coordinate is found in the whole page, zero
otherwise. -/
theorem extract_no_marker_at_most_one (html : String)
    (h : contains_pair_header html = false) :
    extract_all_primer_pairs html =
      (if (extract_single_pair html.data (some 1)).forward_start.isSome
       then [extract_single_pair html.data (some 1)] else []) ∧
    (extract_all_primer_pairs html).length ≤ 1 ∧
    ((extract_all_primer_pairs html).length = 1 ↔
      (extract_single_pair html.data (some 1)).forward_start.isSome = true) := by
  have hmain : extract_all_primer_pairs html =
      (if (extract_single_pair html.data (some 1)).forward_start.isSome
       then [extract_single_pair html.data (some 1)] else []) := by
    unfold extract_all_primer_pairs
    rw [re_split_no_header html h]
    by_cases hf : (extract_single_pair html.data (some 1)).forward_start.isSome = true
    · simp [enumerate_from, List.filterMap_cons, hf]
    · simp [enumerate_from, List.filterMap_cons, hf]
  refine ⟨hmain, ?_, ?_⟩ <;> rw [hmain] <;>
    by_cases hf : (extract_single_pair html.data (some 1)).forward_start.isSome = true <;>
    simp [hf]

/-- Instantiation of the C4 theorem: a page with no marker and no
primer rows yields zero pairs, and `html0` (no marker, one forward row)
yields exactly one. -/
theorem extract_no_marker_at_most_one_witness :
    (extract_all_primer_pairs "hello").length ≤ 1 ∧
    (extract_all_primer_pairs html0).length = 1 :=
  ⟨(extract_no_marker_at_most_one "hello" (by decide)).2.1,
   (extract_no_marker_at_most_one html0 (by decide)).2.2.mpr (by decide)⟩

/-- Element lookup after the slot-writing fold: an index written by some
completion holds its worker's value; any other index keeps its initial
value. -/
theorem foldl_set_getElem {β : Type} (proc : Nat → β) :
    ∀ (order : List Nat) (init : List (Option β)) (k : Nat),
      (order.foldl (fun acc i => acc.set i (some (proc i))) init)[k]? =
        if k ∈ order ∧ k < init.length then some (some (proc k)) else init[k]? := by
  intro order
  induction order with
  | nil => intro init k; simp
  | cons i rest ih =>
    intro init k
    rw [List.foldl_cons, ih, List.length_set]
    by_cases h1 : k ∈ rest ∧ k < init.length
    · rw [if_pos h1, if_pos ⟨List.mem_cons_of_mem _ h1.1, h1.2⟩]
    · rw [if_neg h1, List.getElem?_set]
      by_cases h2 : i = k
      · subst h2
        by_cases h3 : i < init.length
        · rw [if_pos rfl, if_pos h3, if_pos ⟨List.mem_cons_self _ _, h3⟩]
        · rw [if_pos rfl, if_neg h3, if_neg (fun hc => h3 hc.2),
            List.getElem?_eq_none (Nat.le_of_not_lt h3)]
      · rw [if_neg h2]
        have h4 : ¬(k ∈ i :: rest ∧ k < init.length) := by
          intro hc
          rcases List.mem_cons.mp hc.1 with hk | hk
          · exact h2 hk.symm
          · exact h1 ⟨hk, hc.2⟩
        rw [if_neg h4]

/-- C10: for any completion order that is a permutation of the batch
indices, the slot array written by `validate_all_jobs` ends up holding
each job's result at its original index — the final result list is in
original input order, independent of completion order. -/
theorem run_validations_order_independent (jobs : List JobInfo)
    (fetch : Nat → Option String) (order : List Nat)
    (h : order.Perm (List.range jobs.length)) :
    run_validations jobs fetch order =
      (List.range jobs.length).map (fun i => some (process_slot jobs fetch i)) := by
  apply List.ext_getElem?
  intro k
  unfold run_validations
  rw [foldl_set_getElem, List.length_replicate]
  by_cases hk : k < jobs.length
  · have hmem : k ∈ order := h.mem_iff.mpr (List.mem_range.mpr hk)
    rw [if_pos ⟨hmem, hk⟩, List.getElem?_map, List.getElem?_range hk]
    rfl
  · rw [if_neg (fun hc => hk hc.2), List.getElem?_replicate, if_neg hk,
      List.getElem?_eq_none]
    simp [Nat.le_of_not_lt hk]

/-- Instantiation of the C10 theorem on a two-job batch completing in
reverse order. -/
theorem run_validations_order_independent_witness :
    run_validations jobs2 fetch2 [1, 0] =
      (List.range jobs2.length).map (fun i => some (process_slot jobs2 fetch2 i)) :=
  run_validations_order_independent jobs2 fetch2 [1, 0] (by decide)
